import Mathlib

/-!
# Verification of the URL-classification-and-simulated-fetch state machine

Shallow embedding of `src/project/src/App.tsx` (the single source file of the
repository): the platform table, `detectPlatform`, `validateUrl`,
the content synthesis of `fetchMediaContent`, `processUrl`, `clearAndReset`, and the
`useEffect` reacting to input changes, together with an event-level operational
semantics of the React component (state committed between events; closures
created in a render capture the state values of that render).
-/

namespace SVD

/-! ## String helpers

JavaScript string primitives used by the source, re-implemented by structural
recursion on `List Char` so that every proof below can be checked by kernel
evaluation. `strIncludes` models `String.prototype.includes`, `lowerStr`
models `toLowerCase` (the source only matches ASCII host substrings),
`jsTrim` models `String.prototype.trim`, and `padStart` models
`String.prototype.padStart`. -/

/-- `leadsWith p s`: the character list `p` is an initial segment of `s`. -/
def leadsWith : List Char → List Char → Bool
  | [], _ => true
  | _ :: _, [] => false
  | p :: ps, c :: cs => (p = c) && leadsWith ps cs

/-- `hasSub pat s`: `pat` occurs as a contiguous run inside `s`. -/
def hasSub (pat : List Char) : List Char → Bool
  | [] => leadsWith pat []
  | c :: cs => leadsWith pat (c :: cs) || hasSub pat cs

/-- JS `s.includes(pat)`. -/
def strIncludes (s pat : String) : Bool :=
  hasSub pat.data s.data

/-- JS `s.toLowerCase()` on the ASCII range. -/
def lowerStr (s : String) : String :=
  ⟨s.data.map Char.toLower⟩

/-- JS `s.trim()`. -/
def jsTrim (s : String) : String :=
  ⟨((s.data.dropWhile Char.isWhitespace).reverse.dropWhile Char.isWhitespace).reverse⟩

/-- JS `s.padStart(n, c)`. -/
def padStart (s : String) (n : Nat) (c : Char) : String :=
  ⟨List.replicate (n - s.length) c ++ s.data⟩

/-! ## Data model (`App.tsx` lines 4-51) -/

/-- `DetectedPlatform` (App.tsx lines 4-9). The `icon` field is a React
component with no behaviour relevant to any claim; it is dropped, the other
fields are kept verbatim. -/
structure DetectedPlatform where
  name : String
  color : String
  supported : Bool
deriving DecidableEq, Repr

/-- `MediaContent.type` values (App.tsx line 12). -/
inductive MediaType
  | video
  | image
  | carousel
deriving DecidableEq, Repr

/-- `MediaContent` (App.tsx lines 11-18). -/
structure MediaContent where
  type : MediaType
  thumbnail : String
  downloadUrl : String
  title : Option String
  duration : Option String
  resolution : String
deriving DecidableEq, Repr

/-- The `platforms` table (App.tsx lines 20-51), one definition per entry. -/
def platforms.instagram : DetectedPlatform :=
  ⟨"Instagram", "from-pink-500 to-purple-600", true⟩

def platforms.twitter : DetectedPlatform :=
  ⟨"X (Twitter)", "from-blue-400 to-blue-600", true⟩

def platforms.facebook : DetectedPlatform :=
  ⟨"Facebook", "from-blue-600 to-blue-800", true⟩

def platforms.threads : DetectedPlatform :=
  ⟨"Threads", "from-gray-600 to-gray-800", true⟩

def platforms.default : DetectedPlatform :=
  ⟨"Unknown Platform", "from-gray-500 to-gray-700", false⟩

/-! ## Platform Classifier (`detectPlatform`, App.tsx lines 61-70) -/

/-- `detectPlatform` (App.tsx lines 61-70): lowercase the input, then the first
matching substring rule wins, falling through to the unsupported default. -/
def detectPlatform (inputUrl : String) : DetectedPlatform :=
  let urlLower := lowerStr inputUrl
  if strIncludes urlLower "instagram.com" then platforms.instagram
  else if strIncludes urlLower "twitter.com" || strIncludes urlLower "x.com" then
    platforms.twitter
  else if strIncludes urlLower "facebook.com" || strIncludes urlLower "fb.com" then
    platforms.facebook
  else if strIncludes urlLower "threads.net" then platforms.threads
  else platforms.default

/-! ## URL Validator (`validateUrl`, App.tsx lines 72-79)

`validateUrl` calls the `new URL(...)` constructor of the host environment, which is
a platform builtin whose code is not part of the repository; only the
try/catch wrapper is. The parser is therefore modelled from the spec. -/

/-- Failure reasons of the modelled parser (`new URL` throws a single
`TypeError`; the distinct reasons below exist only to state that `validateUrl`
does not distinguish them). -/
inductive ParseErr
  | emptyInput
  | noScheme
  | emptyHost
deriving DecidableEq, Repr

/-- A successfully parsed absolute URL: its (lowercased) scheme and the text
after the scheme separator. -/
structure ParsedURL where
  scheme : String
  rest : String
deriving DecidableEq, Repr

/-- Characters allowed in a URL scheme after the initial letter. -/
def schemeChar (c : Char) : Bool :=
  c.isAlpha || c.isDigit || c = '+' || c = '-' || c = '.'

/-- Characters ending the host component of an authority. -/
def hostEnd (c : Char) : Bool :=
  c = '/' || c = '\\' || c = '?' || c = '#'

/-- Modelled from the spec: the standard URL parser of the host environment invoked
as `new URL(inputUrl)` in App.tsx line 74 (a platform builtin, not repository
code). Per spec §4.1 it accepts exactly well-formed absolute URLs under
standard URL syntax rules (scheme, authority, etc.): a scheme (an ASCII letter
followed by letters, digits, `+`, `-`, `.`) then `:`; for the special schemes
(`http`, `https`, `ws`, `wss`, `ftp`) the remainder must contain a non-empty
host after any leading slashes; any other scheme accepts an arbitrary
remainder. -/
def parseURL (raw : String) : Except ParseErr ParsedURL :=
  match raw.data with
  | [] => Except.error ParseErr.emptyInput
  | c :: cs =>
    if c.isAlpha then
      let schemeChars := (c :: cs).takeWhile schemeChar
      let afterScheme := (c :: cs).drop schemeChars.length
      match afterScheme with
      | ':' :: r =>
        let scheme := lowerStr ⟨schemeChars⟩
        if scheme = "http" || scheme = "https" || scheme = "ws" ||
            scheme = "wss" || scheme = "ftp" then
          let afterSlashes := r.dropWhile (fun d => d = '/' || d = '\\')
          let host := afterSlashes.takeWhile (fun d => !hostEnd d)
          if host.isEmpty then Except.error ParseErr.emptyHost
          else Except.ok ⟨scheme, ⟨afterSlashes⟩⟩
        else Except.ok ⟨scheme, ⟨r⟩⟩
      | _ => Except.error ParseErr.noScheme
    else Except.error ParseErr.noScheme

/-- `validateUrl` (App.tsx lines 72-79): `try { new URL(inputUrl); return
true } catch { return false }`. -/
def validateUrl (inputUrl : String) : Bool :=
  match parseURL inputUrl with
  | Except.ok _ => true
  | Except.error _ => false

/-! ## Content Fetch Simulator (`fetchMediaContent`, App.tsx lines 81-102)

`fetchMediaContent` resolves after a random delay with probability 0.9 to the
`mockContent` record below and otherwise rejects. Its random draws are made
explicit parameters: `isVideo` is the boolean outcome of
`Math.random() > 0.4`; `a`, `b` stand for the two `Math.floor(Math.random() *
2000)` draws of the thumbnail id, `m` for `Math.floor(Math.random() * 3)` of
the duration minutes, `sec` for `Math.floor(Math.random() * 60)` of the
duration seconds, and `r` for `Math.floor(Math.random() * 3)` selecting the
resolution; each draw is reduced modulo its range so every natural number
denotes a possible draw. Whether the promise resolves or rejects, and the
delay, are chosen by the `Event.resolve` events of the semantics below. -/

/-- The `mockContent` record built on fetch success (App.tsx lines 88-95). -/
def mockContent (inputUrl : String) (platform : DetectedPlatform)
    (isVideo : Bool) (a b m sec r : Nat) : MediaContent :=
  { type := if isVideo then MediaType.video else MediaType.image
    thumbnail := "https://images.pexels.com/photos/" ++ Nat.repr (1000 + a % 2000) ++
      "/pexels-photo-" ++ Nat.repr (1000 + b % 2000) ++ ".jpeg?auto=compress&cs=tinysrgb&w=400"
    downloadUrl := inputUrl
    title := some (platform.name ++ " " ++ (if isVideo then "Video" else "Image"))
    duration :=
      if isVideo then
        some (Nat.repr (m % 3 + 1) ++ ":" ++ padStart (Nat.repr (sec % 60)) 2 '0')
      else none
    resolution := ["720p", "1080p", "4K"].getD (r % 3) "720p" }

/-! ## Session State Machine (App.tsx lines 53-157)

The six `useState` cells of the component form `AppState`; `SysState` adds the
in-flight `fetchMediaContent` promises, each tagged with the id under which an
`Event.resolve` can later settle it.

Event semantics of the React component:

* Events (a change of the input field, a click of the reset button, the
  settling of an in-flight promise) are processed one at a time; all state
  updates scheduled while handling one event are committed, and the re-render
  they trigger completes, before the next event.
* A closure defined during a render captures the state values of that render.  The
  `useEffect` of lines 130-157 has dependency array `[url]`, so it runs in the
  first render after `url` changes; in that render `url` already has its new
  value but every other cell still holds its previously committed value.
  Hence `processUrl` (lines 104-119), called from the effect, reads the
  `isValidUrl` and `detectedPlatform` committed BEFORE the current input
  change (the setters called earlier in the same effect do not rewrite the
  captured consts), while receiving the new url as its argument.
* The `await fetchMediaContent ...` continuation runs when the promise
  settles: on fulfilment `setMediaContent(content)`, on rejection
  `setError(...)`, and `setIsProcessing(false)` in either case — applied to
  whatever state is current at that moment, with no staleness check.
-/

/-- The six `useState` cells of `App` (App.tsx lines 54-59). -/
structure AppState where
  url : String
  isValidUrl : Bool
  detectedPlatform : Option DetectedPlatform
  isProcessing : Bool
  mediaContent : Option MediaContent
  error : Option String
deriving DecidableEq, Repr

/-- The initial state of the component (the `useState` defaults). -/
def initialState : AppState :=
  { url := ""
    isValidUrl := false
    detectedPlatform := none
    isProcessing := false
    mediaContent := none
    error := none }

/-- One in-flight `fetchMediaContent` call: the arguments `processUrl` passed
it (App.tsx line 112) — the new input url, and the platform captured by the
`processUrl` closure. -/
structure FetchRequest where
  inputUrl : String
  platform : DetectedPlatform
deriving DecidableEq, Repr

/-- Component state plus the set of in-flight fetch promises, each keyed by
the id under which it can later resolve, and the id for the next fetch. -/
structure SysState where
  app : AppState
  pending : List (Nat × FetchRequest)
  nextId : Nat
deriving DecidableEq, Repr

/-- The state at page load: no input, no in-flight fetch. -/
def initialSys : SysState :=
  { app := initialState, pending := [], nextId := 0 }

/-- How a pending `fetchMediaContent` promise settles: fulfilment with the
random draws that synthesize the `mockContent`, or rejection
(`Math.random() > 0.1` failed, App.tsx lines 97-99). -/
inductive FetchResult
  | success (isVideo : Bool) (a b m sec r : Nat)
  | failure
deriving DecidableEq, Repr

/-- The advisory message of the unsupported-platform branch (App.tsx
line 143). -/
def unsupportedMsg : String :=
  "This platform is not supported yet. We support Instagram, Facebook, X (Twitter), and Threads."

/-- The generic failure message of the catch branch of `processUrl` (App.tsx
line 115). -/
def failMsg : String :=
  "Failed to process the URL. Please check the link and try again."

/-- The guard of `processUrl` (App.tsx line 105): `if (!isValidUrl ||
!detectedPlatform?.supported) return;`, evaluated on the state snapshot the
closure captured. -/
def processUrlGuard (snap : AppState) : Bool :=
  snap.isValidUrl &&
    (match snap.detectedPlatform with
     | some p => p.supported
     | none => false)

/-- The input-change event: `setUrl(newUrl)` followed (when the value actually
changed) by the `useEffect` of App.tsx lines 130-157.  `snap` is the state
committed before the event; the closures of the effect (in particular
`processUrl`) captured the `isValidUrl` and `detectedPlatform` of `snap`.  When the
`processUrl` guard passes, lines 107-112 set processing, clear error and
content, and start a `fetchMediaContent(url, detectedPlatform)` call — with
the CAPTURED `detectedPlatform`. -/
def applyInputChange (s : SysState) (newUrl : String) : SysState :=
  if newUrl = s.app.url then s
  else
    let snap := s.app
    let a0 := { snap with url := newUrl }
    if jsTrim newUrl = "" then
      { s with app := { a0 with
          isValidUrl := false
          detectedPlatform := none
          mediaContent := none
          error := none
          isProcessing := false } }
    else
      let valid := validateUrl newUrl
      let a1 := { a0 with isValidUrl := valid }
      if valid then
        let platform := detectPlatform newUrl
        let a2 := { a1 with detectedPlatform := some platform }
        if platform.supported then
          if processUrlGuard snap then
            { app := { a2 with isProcessing := true, error := none, mediaContent := none }
              pending := s.pending ++
                [(s.nextId, ⟨newUrl, snap.detectedPlatform.getD platforms.default⟩)]
              nextId := s.nextId + 1 }
          else { s with app := a2 }
        else
          { s with app := { a2 with error := some unsupportedMsg } }
      else
        { s with app := { a1 with
            detectedPlatform := none
            mediaContent := none
            error := none } }

/-- `clearAndReset` (App.tsx lines 121-128) sets all six cells back to their
defaults; the `useEffect` re-run it may trigger (url cleared to `""`) lands in
the empty-input branch and re-establishes the same defaults. -/
def applyReset (s : SysState) : SysState :=
  { s with app := initialState }

/-- Settling of the in-flight promise with id `id`: the `await` continuation
of `processUrl` (App.tsx lines 111-118) applied to the current state.  An id
not in `pending` (already settled) is a no-op. -/
def applyResolve (s : SysState) (id : Nat) (res : FetchResult) : SysState :=
  match s.pending.find? (fun pr => pr.1 == id) with
  | none => s
  | some (_, req) =>
    let pending' := s.pending.filter (fun pr => pr.1 != id)
    match res with
    | FetchResult.success isVideo a b m sec r =>
      { s with
        app := { s.app with
          mediaContent := some (mockContent req.inputUrl req.platform isVideo a b m sec r)
          isProcessing := false }
        pending := pending' }
    | FetchResult.failure =>
      { s with
        app := { s.app with error := some failMsg, isProcessing := false }
        pending := pending' }

/-- The events the component reacts to. -/
inductive Event
  | input (newUrl : String)
  | reset
  | resolve (id : Nat) (res : FetchResult)
deriving DecidableEq, Repr

/-- One event step. -/
def step (s : SysState) (e : Event) : SysState :=
  match e with
  | Event.input newUrl => applyInputChange s newUrl
  | Event.reset => applyReset s
  | Event.resolve id res => applyResolve s id res

/-- The state after a session history (a sequence of events from page load). -/
def run (es : List Event) : SysState :=
  es.foldl step initialSys

/-! ## Helper lemmas -/

/-- The decimal notation of a natural number below 60 has one or two digits. -/
theorem reprLen_lt60 : ∀ k, k < 60 → (Nat.repr k).length = 1 ∨ (Nat.repr k).length = 2 := by
  decide

/-- The decimal notation of a natural number in 1..3 has one digit. -/
theorem reprLen_lt3 : ∀ k, k < 3 → (Nat.repr (k + 1)).length = 1 := by
  decide

/-- Padding a string of length at most two with zeros to width two yields
length exactly two. -/
theorem padStart_length_two (s : String) (h : s.length ≤ 2) :
    (padStart s 2 '0').length = 2 := by
  show (List.replicate (2 - s.length) '0' ++ s.data).length = 2
  rw [List.length_append, List.length_replicate]
  have hd : s.data.length = s.length := rfl
  omega

/-! ## Claims -/

/-- Claim C1 (refuting evaluation). The claim states that a stale fetch
resolution never mutates `SessionState` — the final result must reflect only
the most recently initiated fetch. In the history below, fetch 0 (for
`.../ab`) and fetch 1 (for `.../abc`) are both in flight; fetch 1 (the newer
one, B) resolves first and stores its descriptor, and then the stale fetch 0
(A) resolves and overwrites it: the final `mediaContent` is the descriptor of
A, whose `downloadUrl` is the superseded url `.../ab`, not the descriptor of
B. The `await` continuation of `processUrl` (App.tsx lines 111-118) applies
its setters with no request token or staleness check. -/
theorem stale_resolution_overwrites :
    (run [Event.input "https://instagram.com/a",
      Event.input "https://instagram.com/ab",
      Event.input "https://instagram.com/abc",
      Event.resolve 1 (FetchResult.success false 0 0 0 0 0),
      Event.resolve 0 (FetchResult.success true 0 0 0 7 0)]).app.mediaContent
        = some (mockContent "https://instagram.com/ab" platforms.instagram true 0 0 0 7 0) ∧
    (run [Event.input "https://instagram.com/a",
      Event.input "https://instagram.com/ab",
      Event.input "https://instagram.com/abc",
      Event.resolve 1 (FetchResult.success false 0 0 0 0 0)]).app.mediaContent
        = some (mockContent "https://instagram.com/abc" platforms.instagram false 0 0 0 0 0) ∧
    Option.map MediaContent.downloadUrl
      (run [Event.input "https://instagram.com/a",
        Event.input "https://instagram.com/ab",
        Event.input "https://instagram.com/abc",
        Event.resolve 1 (FetchResult.success false 0 0 0 0 0),
        Event.resolve 0 (FetchResult.success true 0 0 0 7 0)]).app.mediaContent
        = some "https://instagram.com/ab" ∧
    Option.map MediaContent.downloadUrl
      (run [Event.input "https://instagram.com/a",
        Event.input "https://instagram.com/ab",
        Event.input "https://instagram.com/abc",
        Event.resolve 1 (FetchResult.success false 0 0 0 0 0),
        Event.resolve 0 (FetchResult.success true 0 0 0 7 0)]).app.mediaContent
        ≠ some "https://instagram.com/abc" := by
  refine ⟨by decide, by decide, by decide, by decide⟩

/-- Claim C2 (refuting evaluation). The claim states that every input change
to a non-empty, valid, supported-platform string transitions the machine to
Pending (pending set, result and error cleared, fetch started, no further
user action needed). The history below changes the input from empty to a
valid Instagram url in one event (a paste): classification succeeds and the
url is valid, yet the machine is not pending, no fetch was started, and no
result ever arrives — the guard of `processUrl` (App.tsx line 105) reads the
`isValidUrl` and `detectedPlatform` captured by its closure, which are the
values committed BEFORE this input change, and returns early. -/
theorem pasted_url_starts_no_fetch :
    validateUrl "https://instagram.com/p/x" = true ∧
    (detectPlatform "https://instagram.com/p/x").supported = true ∧
    jsTrim "https://instagram.com/p/x" ≠ "" ∧
    (run [Event.input "https://instagram.com/p/x"]).app.isValidUrl = true ∧
    (run [Event.input "https://instagram.com/p/x"]).app.detectedPlatform
      = some platforms.instagram ∧
    (run [Event.input "https://instagram.com/p/x"]).app.isProcessing = false ∧
    (run [Event.input "https://instagram.com/p/x"]).pending = [] ∧
    (run [Event.input "https://instagram.com/p/x"]).app.mediaContent = none := by
  decide

/-- Claim C3 (refuting evaluation). The claim states the invariant that
`result` and `errorMessage` are never both present. In the history below a
fetch succeeds (result stored), then the input changes to a valid url of an
unsupported platform: the effect branch of App.tsx lines 142-144 stores the
advisory error message without clearing `mediaContent`, so the final state
has a present result AND a present error message. -/
theorem result_and_error_coexist :
    (run [Event.input "https://instagram.com/a",
      Event.input "https://instagram.com/ab",
      Event.resolve 0 (FetchResult.success false 0 0 0 0 0),
      Event.input "https://tiktok.com/@user/video/1"]).app.mediaContent
        = some (mockContent "https://instagram.com/ab" platforms.instagram false 0 0 0 0 0) ∧
    (run [Event.input "https://instagram.com/a",
      Event.input "https://instagram.com/ab",
      Event.resolve 0 (FetchResult.success false 0 0 0 0 0),
      Event.input "https://tiktok.com/@user/video/1"]).app.error = some unsupportedMsg := by
  decide

/-- Claim C4: `detectPlatform` lowercases its input and returns the first
matching descriptor in the fixed order instagram.com → Instagram,
twitter.com/x.com → X (Twitter), facebook.com/fb.com → Facebook, threads.net
→ Threads, otherwise the unsupported default; a string containing both
`instagram.com` and `x.com` classifies as Instagram; classification is total
(always one of the five descriptors) with no failure mode. -/
theorem detectPlatform_order_spec (s : String) :
    (strIncludes (lowerStr s) "instagram.com" = true →
      detectPlatform s = platforms.instagram) ∧
    (strIncludes (lowerStr s) "instagram.com" = false →
      (strIncludes (lowerStr s) "twitter.com" || strIncludes (lowerStr s) "x.com") = true →
      detectPlatform s = platforms.twitter) ∧
    (strIncludes (lowerStr s) "instagram.com" = false →
      (strIncludes (lowerStr s) "twitter.com" || strIncludes (lowerStr s) "x.com") = false →
      (strIncludes (lowerStr s) "facebook.com" || strIncludes (lowerStr s) "fb.com") = true →
      detectPlatform s = platforms.facebook) ∧
    (strIncludes (lowerStr s) "instagram.com" = false →
      (strIncludes (lowerStr s) "twitter.com" || strIncludes (lowerStr s) "x.com") = false →
      (strIncludes (lowerStr s) "facebook.com" || strIncludes (lowerStr s) "fb.com") = false →
      strIncludes (lowerStr s) "threads.net" = true →
      detectPlatform s = platforms.threads) ∧
    (strIncludes (lowerStr s) "instagram.com" = false →
      (strIncludes (lowerStr s) "twitter.com" || strIncludes (lowerStr s) "x.com") = false →
      (strIncludes (lowerStr s) "facebook.com" || strIncludes (lowerStr s) "fb.com") = false →
      strIncludes (lowerStr s) "threads.net" = false →
      detectPlatform s = platforms.default ∧ (detectPlatform s).supported = false) ∧
    (detectPlatform s = platforms.instagram ∨ detectPlatform s = platforms.twitter ∨
      detectPlatform s = platforms.facebook ∨ detectPlatform s = platforms.threads ∨
      detectPlatform s = platforms.default) ∧
    detectPlatform "https://instagram.com/?from=x.com" = platforms.instagram ∧
    strIncludes (lowerStr "https://instagram.com/?from=x.com") "instagram.com" = true ∧
    strIncludes (lowerStr "https://instagram.com/?from=x.com") "x.com" = true := by
  refine ⟨?_, ?_, ?_, ?_, ?_, ?_, by decide, by decide, by decide⟩
  · intro h1; simp [detectPlatform, h1]
  · intro h1 h2; simp [detectPlatform, h1, h2]
  · intro h1 h2 h3; simp [detectPlatform, h1, h2, h3]
  · intro h1 h2 h3 h4; simp [detectPlatform, h1, h2, h3, h4]
  · intro h1 h2 h3 h4; simp [detectPlatform, h1, h2, h3, h4]; decide
  · simp only [detectPlatform]
    split
    · exact Or.inl rfl
    split
    · exact Or.inr (Or.inl rfl)
    split
    · exact Or.inr (Or.inr (Or.inl rfl))
    split
    · exact Or.inr (Or.inr (Or.inr (Or.inl rfl)))
    · exact Or.inr (Or.inr (Or.inr (Or.inr rfl)))

/-- Witness for `detectPlatform_order_spec` at the concrete input
`https://X.com/a`, which matches the second rule. -/
theorem detectPlatform_order_spec_witness :
    strIncludes (lowerStr "https://X.com/a") "instagram.com" = false ∧
    (strIncludes (lowerStr "https://X.com/a") "twitter.com" ||
      strIncludes (lowerStr "https://X.com/a") "x.com") = true ∧
    detectPlatform "https://X.com/a" = platforms.twitter :=
  ⟨by decide, by decide,
    (detectPlatform_order_spec "https://X.com/a").2.1 (by decide) (by decide)⟩

/-- Claim C5: an input change to a non-empty string that is a valid url of an
unsupported platform stores the fixed advisory error message naming the
supported platform set, records validity and the detected platform, and does
not start any fetch (the in-flight set and the fetch counter are unchanged). -/
theorem unsupported_input_spec (s : SysState) (u : String)
    (hne : u ≠ s.app.url) (ht : jsTrim u ≠ "")
    (hv : validateUrl u = true) (hsup : (detectPlatform u).supported = false) :
    (step s (Event.input u)).app.error = some unsupportedMsg ∧
    (step s (Event.input u)).app.isValidUrl = true ∧
    (step s (Event.input u)).app.detectedPlatform = some (detectPlatform u) ∧
    (step s (Event.input u)).app.url = u ∧
    (step s (Event.input u)).pending = s.pending ∧
    (step s (Event.input u)).nextId = s.nextId := by
  simp [step, applyInputChange, hne, ht, hv, hsup]

/-- Witness for `unsupported_input_spec`: the TikTok url of spec §8
entered from the initial state. -/
theorem unsupported_input_spec_witness :
    ("https://tiktok.com/@user/video/1" ≠ initialSys.app.url) ∧
    (jsTrim "https://tiktok.com/@user/video/1" ≠ "") ∧
    validateUrl "https://tiktok.com/@user/video/1" = true ∧
    (detectPlatform "https://tiktok.com/@user/video/1").supported = false ∧
    (step initialSys (Event.input "https://tiktok.com/@user/video/1")).app.error
      = some unsupportedMsg :=
  ⟨by decide, by decide, by decide, by decide,
    (unsupported_input_spec initialSys "https://tiktok.com/@user/video/1"
      (by decide) (by decide) (by decide) (by decide)).1⟩

/-- Claim C6: from a Pending state (fetch in flight, no result, no error),
resolving the in-flight fetch with success stores the synthesized descriptor
and leaves pending false and error absent (Ready), while resolving it with
failure stores exactly the message `Failed to process the URL. Please check
the link and try again.` and leaves pending false and the result absent
(Failed). -/
theorem pending_resolution_spec (s : SysState) (id : Nat) (req : FetchRequest)
    (_hp : s.app.isProcessing = true) (he : s.app.error = none)
    (hm : s.app.mediaContent = none)
    (hfind : s.pending.find? (fun pr => pr.1 == id) = some (id, req)) :
    (∀ isVideo a b m sec r,
      (step s (Event.resolve id (FetchResult.success isVideo a b m sec r))).app.mediaContent
          = some (mockContent req.inputUrl req.platform isVideo a b m sec r) ∧
      (step s (Event.resolve id (FetchResult.success isVideo a b m sec r))).app.isProcessing
          = false ∧
      (step s (Event.resolve id (FetchResult.success isVideo a b m sec r))).app.error = none) ∧
    ((step s (Event.resolve id FetchResult.failure)).app.error = some failMsg ∧
     (step s (Event.resolve id FetchResult.failure)).app.isProcessing = false ∧
     (step s (Event.resolve id FetchResult.failure)).app.mediaContent = none) := by
  constructor
  · intro isVideo a b m sec r
    simp [step, applyResolve, hfind, he]
  · simp [step, applyResolve, hfind, hm]

/-- Witness for `pending_resolution_spec`: a concrete history reaching a
Pending state with fetch 0 in flight, resolved with failure. -/
theorem pending_resolution_spec_witness :
    ((run [Event.input "https://instagram.com/a",
        Event.input "https://instagram.com/ab"]).pending.find? (fun pr => pr.1 == 0)
      = some (0, ⟨"https://instagram.com/ab", platforms.instagram⟩)) ∧
    (step (run [Event.input "https://instagram.com/a", Event.input "https://instagram.com/ab"])
        (Event.resolve 0 FetchResult.failure)).app.error = some failMsg :=
  ⟨by decide,
    (pending_resolution_spec
      (run [Event.input "https://instagram.com/a", Event.input "https://instagram.com/ab"])
      0 ⟨"https://instagram.com/ab", platforms.instagram⟩
      (by decide) (by decide) (by decide) (by decide)).2.1⟩

/-- Claim C8: from every state, the explicit reset and the transition taken
when the input is cleared to empty both produce the identical Idle default
component state (empty url, validity false, platform, result and error
absent, pending false); reset has no failure mode (it is a total function)
and is idempotent. -/
theorem reset_spec (s : SysState) (hne : s.app.url ≠ "") :
    (step s Event.reset).app = initialState ∧
    (step s (Event.input "")).app = initialState ∧
    (step (step s Event.reset) Event.reset).app = initialState ∧
    (step s Event.reset).app = (step s (Event.input "")).app := by
  have hclear : (step s (Event.input "")).app = initialState := by
    have hne' : ¬("" = s.app.url) := fun h => hne h.symm
    rw [step]
    unfold applyInputChange
    rw [if_neg hne', if_pos (by decide : jsTrim "" = "")]
    rfl
  exact ⟨rfl, hclear, rfl, hclear.symm ▸ rfl⟩

/-- Witness for `reset_spec`: clearing the input from a concrete non-empty
state returns the component state to the Idle defaults. -/
theorem reset_spec_witness :
    ((run [Event.input "https://instagram.com/a"]).app.url ≠ "") ∧
    (step (run [Event.input "https://instagram.com/a"]) (Event.input "")).app = initialState :=
  ⟨by decide, (reset_spec (run [Event.input "https://instagram.com/a"]) (by decide)).2.1⟩

/-- Claim C7: every descriptor synthesized by a successful simulated fetch
has `duration` defined if and only if its kind is video, and when defined the
duration is minutes (one digit, 1..3) then `:` then seconds zero-padded to
exactly two digits. -/
theorem mockContent_duration_spec (url : String) (p : DetectedPlatform)
    (isVideo : Bool) (a b m sec r : Nat) :
    ((mockContent url p isVideo a b m sec r).duration.isSome ↔
      (mockContent url p isVideo a b m sec r).type = MediaType.video) ∧
    ((mockContent url p isVideo a b m sec r).type = MediaType.video →
      (mockContent url p isVideo a b m sec r).duration =
        some (Nat.repr (m % 3 + 1) ++ ":" ++ padStart (Nat.repr (sec % 60)) 2 '0') ∧
      (Nat.repr (m % 3 + 1)).length = 1 ∧
      (padStart (Nat.repr (sec % 60)) 2 '0').length = 2) := by
  have hm : (Nat.repr (m % 3 + 1)).length = 1 := reprLen_lt3 _ (Nat.mod_lt _ (by decide))
  have hs : (Nat.repr (sec % 60)).length = 1 ∨ (Nat.repr (sec % 60)).length = 2 :=
    reprLen_lt60 _ (Nat.mod_lt _ (by decide))
  have hpad : (padStart (Nat.repr (sec % 60)) 2 '0').length = 2 :=
    padStart_length_two _ (by omega)
  cases isVideo <;> simp [mockContent, hm, hpad]

/-- Witness for `mockContent_duration_spec` at a concrete video draw: the
duration is present and formatted as `1:05`. -/
theorem mockContent_duration_spec_witness :
    ((mockContent "u" platforms.instagram true 0 0 0 5 0).type = MediaType.video) ∧
    (mockContent "u" platforms.instagram true 0 0 0 5 0).duration =
      some (Nat.repr (0 % 3 + 1) ++ ":" ++ padStart (Nat.repr (5 % 60)) 2 '0') :=
  ⟨by decide, ((mockContent_duration_spec "u" platforms.instagram true 0 0 0 5 0).2
    (by decide)).1⟩

/-- Claim C9: `validateUrl` returns true exactly when the (spec-modelled)
standard URL parser accepts the input as a well-formed absolute URL, it is a
pure total boolean function (never throws), and it maps every parse error to
`false` with no distinction among failure reasons: two inputs failing for
different reasons validate identically. -/
theorem validateUrl_spec (s t : String) (e e' : ParseErr) :
    (validateUrl s = true ↔ ∃ u, parseURL s = Except.ok u) ∧
    (parseURL s = Except.error e → validateUrl s = false) ∧
    (parseURL s = Except.error e → parseURL t = Except.error e' →
      validateUrl s = validateUrl t) := by
  refine ⟨?_, ?_, ?_⟩
  · unfold validateUrl
    cases hp : parseURL s with
    | ok u => simp [hp]
    | error err => simp [hp]
  · intro hp; unfold validateUrl; rw [hp]
  · intro hp hq; unfold validateUrl; rw [hp, hq]

/-- Witness for `validateUrl_spec`: `not a url` (no scheme) and `https://`
(empty host) fail for different reasons and validate identically. -/
theorem validateUrl_spec_witness :
    parseURL "not a url" = Except.error ParseErr.noScheme ∧
    parseURL "https://" = Except.error ParseErr.emptyHost ∧
    validateUrl "not a url" = validateUrl "https://" :=
  ⟨by rfl, by rfl,
    (validateUrl_spec "not a url" "https://" ParseErr.noScheme ParseErr.emptyHost).2.2
      (by rfl) (by rfl)⟩

/-- Claim C10: validation is purely syntactic and scheme-agnostic — the
non-http inputs `mailto:user@example.com` and `javascript:alert(1)` validate
as URLs, classify to the unsupported default descriptor, and therefore reach
the unsupported-platform advisory state rather than being rejected as invalid
input. -/
theorem scheme_agnostic_validation :
    validateUrl "mailto:user@example.com" = true ∧
    validateUrl "javascript:alert(1)" = true ∧
    detectPlatform "mailto:user@example.com" = platforms.default ∧
    detectPlatform "javascript:alert(1)" = platforms.default ∧
    platforms.default.supported = false ∧
    (run [Event.input "mailto:user@example.com"]).app.isValidUrl = true ∧
    (run [Event.input "mailto:user@example.com"]).app.detectedPlatform
      = some platforms.default ∧
    (run [Event.input "mailto:user@example.com"]).app.error = some unsupportedMsg := by
  decide

end SVD
